import Mathlib

/-!
Verification development for the fixed-size delegate library (delegate.h).

The library is a bounded, allocation-free std::function replacement.  A
wrapper (FuncNonCopyable / FuncCopyable) owns a fixed-size storage buffer
(FunctorArgs), a call-trampoline reference (one template instantiation of
typed_call per captured type) and a reference to a per-captured-type static
Vtable of copy / move / destroy operations.

The embedding has two layers.

Static layer: the compile-time configuration (DELEGATE_ARGS_SIZE and
DELEGATE_ARGS_ALIGN), the capability predicates can_emplace and can_copy,
and one Boolean per construction/assignment path recording exactly which
static checks that path performs (its static_asserts together with the
template instantiations it forces).  Machine constants follow the LP64
targets the header is written for: sizeof(int) is 4, sizeof(int pointer)
is 8, so the default DELEGATE_ARGS_SIZE is 12 and DELEGATE_ARGS_ALIGN is 8.
A C++ struct whose single member is an alignas(A) char array of S bytes
has sizeof equal to S rounded up to the next multiple of A, and alignment A.

Dynamic layer: captured types are represented by an abstract tag type with
decidable equality.  Distinct template instantiations of typed_call and of
the Vtable local static have distinct, process-stable addresses, so the
call member and the vtable member of a wrapper are each modelled as a tag:
pointer identity becomes tag equality.  The distinguished tag sentinel
stands for decltype(badcall), the captureless lambda used by the default
state.  Storage is Option (Tag x Cap): none models bytes not holding any
user object (the default-constructed buffer, or a buffer last written by a
sentinel operation; all sentinel operations are no-ops on storage because
the sentinel type is an empty, trivially copyable, trivially destructible
lambda).  Reinterpreting storage at a wrong non-sentinel tag is undefined
behaviour and yields the fault undef; std::terminate yields the fault
terminated.  Each wrapper operation additionally returns the list of
Vtable operations it invoked, in order, so that claims about which table
operations run (and which must not run) are statements about that trace.
The value left in a moved-from storage slot is modelled as the original
value; the model only ever destroys it, so the abstraction is sound.
-/

namespace Delegate

/-! Static layer: configuration and capability predicates. -/

/-- Compile-time configuration: DELEGATE_ARGS_SIZE and DELEGATE_ARGS_ALIGN. -/
structure Config where
  size : Nat
  align : Nat
deriving DecidableEq

/-- Model of sizeof(FunctorArgs): the configured byte count rounded up to a
multiple of the configured alignment, as C++ layout rules require for a
struct holding one alignas(align) char array of length size. -/
def sizeofFunctorArgs (c : Config) : Nat :=
  c.align * ((c.size + c.align - 1) / c.align)

/-- Model of alignment_of(FunctorArgs): the configured alignment. -/
def alignofFunctorArgs (c : Config) : Nat := c.align

/-- Default configuration of delegate.h on LP64: DELEGATE_ARGS_SIZE is
sizeof(int) + sizeof(int pointer) = 12 and DELEGATE_ARGS_ALIGN = 8. -/
def defaultConfig : Config := ⟨12, 8⟩

/-- Compile-time descriptor of a candidate captured functor type T:
its size and alignment, whether it is copy constructible, whether
invoke_result_t of T at the declared arguments equals the declared Result
exactly, and whether it is merely implicitly convertible to it. -/
structure CandType where
  size : Nat
  align : Nat
  copyConstructible : Bool
  resultSame : Bool
  resultConvertible : Bool
deriving DecidableEq

/-- Model of can_emplace: sizeof(T) fits sizeof(FunctorArgs) and the
storage alignment is a multiple of the alignment of T. -/
def can_emplace (c : Config) (t : CandType) : Bool :=
  decide (t.size ≤ sizeofFunctorArgs c) &&
  decide (alignofFunctorArgs c % t.align = 0)

/-- Model of can_copy: T is copy constructible. -/
def can_copy (t : CandType) : Bool := t.copyConstructible

/-- Compilation predicate of the FuncNonCopyable converting constructor
from a bare functor: static_asserts can_emplace and exact result type, and
instantiates typed_call (which needs the result to be convertible). -/
def fncCtorFromFunctorCompiles (c : Config) (t : CandType) : Bool :=
  can_emplace c t && t.resultSame && t.resultConvertible

/-- Compilation predicate of the FuncNonCopyable move assignment from a
bare functor: the same checks as the converting constructor. -/
def fncMoveAssignFunctorCompiles (c : Config) (t : CandType) : Bool :=
  can_emplace c t && t.resultSame && t.resultConvertible

/-- Compilation predicate of the FuncCopyable converting constructor from
a bare functor: it static_asserts only can_copy, and instantiates
typed_call (result merely convertible).  It has no can_emplace and no
exact-result static_assert. -/
def fcCtorFromFunctorCompiles (_c : Config) (t : CandType) : Bool :=
  can_copy t && t.resultConvertible

/-- Compilation predicate of the FuncCopyable copy assignment from a bare
functor: static_asserts can_emplace, exact result type and can_copy, and
instantiates typed_call. -/
def fcCopyAssignFunctorCompiles (c : Config) (t : CandType) : Bool :=
  can_emplace c t && t.resultSame && can_copy t && t.resultConvertible

/-! Dynamic layer: wrapper state, vtable operations, traces. -/

/-- Run-time faults: terminated models std::terminate, undef models
undefined behaviour from reinterpreting storage at a wrong type. -/
inductive Fault
  | terminated
  | undefined
deriving DecidableEq

/-- One invocation of a Vtable operation, tagged with the captured type
whose table provided the operation. -/
inductive VOp (Tag : Type)
  | copy (t : Tag)
  | move (t : Tag)
  | destroy (t : Tag)
deriving DecidableEq

/-- State of a delegate wrapper: the storage buffer, the tag identifying
the typed_call instantiation the call member points to, and the tag
identifying the Vtable local static the vtable member points to. -/
structure Wrapper (Tag Cap : Type) where
  args : Option (Tag × Cap)
  call : Tag
  vtable : Tag
deriving DecidableEq

section Dyn

variable {Tag : Type} [DecidableEq Tag] {Cap Arg Ret : Type}

/-- Vtable.typed_copy for tag t: the specialization for a non copy
constructible type unconditionally calls std::terminate; the sentinel
(captureless lambda) copy touches no storage; otherwise the source storage
is reinterpreted as t, which is undefined behaviour unless t is the tag
the storage actually holds. -/
def typed_copy (copyable : Tag → Bool) (sentinel t : Tag)
    (src : Option (Tag × Cap)) : Except Fault (Option (Tag × Cap)) :=
  if copyable t = false then .error .terminated
  else if t = sentinel then .ok none
  else match src with
    | some (u, v) => if u = t then .ok (some (t, v)) else .error .undefined
    | none => .error .undefined

/-- Vtable.typed_move for tag t: returns the new destination storage and
the source storage left behind.  The sentinel move touches no storage;
otherwise the source must actually hold a t.  The moved-from residue keeps
tag t (a real object of type t remains alive in the source buffer). -/
def typed_move (sentinel t : Tag) (src : Option (Tag × Cap)) :
    Except Fault (Option (Tag × Cap) × Option (Tag × Cap)) :=
  if t = sentinel then .ok (none, src)
  else match src with
    | some (u, v) => if u = t then .ok (some (t, v), some (t, v)) else .error .undefined
    | none => .error .undefined

/-- Vtable.typed_destroy for tag t: the sentinel destructor is trivial and
is a no-op on any bytes; otherwise the storage must actually hold a t,
whose lifetime then ends. -/
def typed_destroy (sentinel t : Tag) (s : Option (Tag × Cap)) :
    Except Fault (Option (Tag × Cap)) :=
  if t = sentinel then .ok s
  else match s with
    | some (u, _) => if u = t then .ok none else .error .undefined
    | none => .error .undefined

/-- The typed_call trampoline for tag t, where sem gives each captured
type its behaviour: a captured value and an argument produce a result and
an updated captured value (delegates cast away constness, so mutable
functors are supported).  The sentinel trampoline is the badcall lambda:
it reads no storage and unconditionally calls std::terminate. -/
def typed_call (sem : Tag → Cap → Arg → Ret × Cap) (sentinel t : Tag)
    (s : Option (Tag × Cap)) (a : Arg) : Except Fault (Ret × Option (Tag × Cap)) :=
  if t = sentinel then .error .terminated
  else match s with
    | some (u, v) =>
        if u = t then .ok ((sem t v a).1, some (t, (sem t v a).2)) else .error .undefined
    | none => .error .undefined

/-- FuncNonCopyable default constructor: storage uninhabited, call and
vtable both the sentinel tag (decltype(badcall)). -/
def defaultCtor (sentinel : Tag) : Wrapper Tag Cap := ⟨none, sentinel, sentinel⟩

/-- FuncNonCopyable converting constructor from a bare functor of tag t
with captured value v: move_functor places the functor in storage and both
references are set to the tag of t. -/
def fncCtorFromFunctor (t : Tag) (v : Cap) : Wrapper Tag Cap := ⟨some (t, v), t, t⟩

/-- FuncCopyable converting constructor from a bare functor: store_functor
copies the functor into storage; call and vtable are set to the tag of t. -/
def fcCtorFromFunctor (t : Tag) (v : Cap) : Wrapper Tag Cap := ⟨some (t, v), t, t⟩

/-- FuncNonCopyable move constructor: adopt the source call and vtable,
move the storage through the source vtable, then set_bad_call on the
source.  set_bad_call resets only the call member to the sentinel
trampoline; the source vtable member is left unchanged. -/
def moveCtor (sentinel : Tag) (other : Wrapper Tag Cap) :
    Except Fault (Wrapper Tag Cap × Wrapper Tag Cap) × List (VOp Tag) :=
  match typed_move sentinel other.vtable other.args with
  | .ok (dst, srcAfter) =>
      (.ok (⟨dst, other.call, other.vtable⟩, ⟨srcAfter, sentinel, other.vtable⟩),
       [.move other.vtable])
  | .error f => (.error f, [.move other.vtable])

/-- FuncNonCopyable move assignment.  The aliased flag models the address
identity test at the top of the operator (other == this): when set, the
operator returns immediately.  Otherwise: destroy the current occupant
through the current vtable, move the source storage through the source
vtable, adopt the source call and vtable, and set_bad_call on the source
(again only the call member). -/
def moveAssign (sentinel : Tag) (aliased : Bool) (self other : Wrapper Tag Cap) :
    Except Fault (Wrapper Tag Cap × Wrapper Tag Cap) × List (VOp Tag) :=
  if aliased then (.ok (self, other), [])
  else
    match typed_destroy sentinel self.vtable self.args with
    | .error f => (.error f, [.destroy self.vtable])
    | .ok _ =>
      match typed_move sentinel other.vtable other.args with
      | .ok (dst, srcAfter) =>
          (.ok (⟨dst, other.call, other.vtable⟩, ⟨srcAfter, sentinel, other.vtable⟩),
           [.destroy self.vtable, .move other.vtable])
      | .error f => (.error f, [.destroy self.vtable, .move other.vtable])

/-- FuncNonCopyable move assignment from a bare functor: destroy the
current occupant through the current vtable, then move_functor the new
functor into storage (a direct placement new, not a vtable operation) and
set call and vtable to the tag of t. -/
def fncMoveAssignFunctor (sentinel t : Tag) (v : Cap) (self : Wrapper Tag Cap) :
    Except Fault (Wrapper Tag Cap) × List (VOp Tag) :=
  match typed_destroy sentinel self.vtable self.args with
  | .error f => (.error f, [.destroy self.vtable])
  | .ok _ => (.ok ⟨some (t, v), t, t⟩, [.destroy self.vtable])

/-- FuncCopyable copy constructor: adopt the source call and vtable, then
copy the storage; since the vtable was just set from the source, the copy
runs through the source vtable. -/
def copyCtor (copyable : Tag → Bool) (sentinel : Tag) (other : Wrapper Tag Cap) :
    Except Fault (Wrapper Tag Cap) × List (VOp Tag) :=
  match typed_copy copyable sentinel other.vtable other.args with
  | .ok dst => (.ok ⟨dst, other.call, other.vtable⟩, [.copy other.vtable])
  | .error f => (.error f, [.copy other.vtable])

/-- FuncCopyable copy assignment from a bare functor: store_functor the
functor straight into storage (no destroy of the current occupant), then
set call and vtable to the tag of t. -/
def fcCopyAssignFunctor (t : Tag) (v : Cap) (_self : Wrapper Tag Cap) :
    Wrapper Tag Cap × List (VOp Tag) :=
  (⟨some (t, v), t, t⟩, [])

/-- FuncCopyable copy assignment.  The aliased flag models the address
identity test (this == other).  Otherwise the operator destroys the
current occupant through the current vtable, then performs the copy
through the vtable member as it stands at that point, that is the
destination vtable from before the assignment, and only afterwards adopts
the source call and vtable. -/
def copyAssign (copyable : Tag → Bool) (sentinel : Tag) (aliased : Bool)
    (self other : Wrapper Tag Cap) :
    Except Fault (Wrapper Tag Cap × Wrapper Tag Cap) × List (VOp Tag) :=
  if aliased then (.ok (self, other), [])
  else
    match typed_destroy sentinel self.vtable self.args with
    | .error f => (.error f, [.destroy self.vtable])
    | .ok _ =>
      match typed_copy copyable sentinel self.vtable other.args with
      | .ok dst => (.ok (⟨dst, other.call, other.vtable⟩, other),
                    [.destroy self.vtable, .copy self.vtable])
      | .error f => (.error f, [.destroy self.vtable, .copy self.vtable])

/-- The function call operator: forwards through the call member against
the current storage. -/
def invoke (sem : Tag → Cap → Arg → Ret × Cap) (sentinel : Tag)
    (self : Wrapper Tag Cap) (a : Arg) : Except Fault (Ret × Option (Tag × Cap)) :=
  typed_call sem sentinel self.call self.args a

/-- The destructor: destroys the current occupant through the current
vtable. -/
def dtor (sentinel : Tag) (self : Wrapper Tag Cap) :
    Except Fault (Option (Tag × Cap)) × List (VOp Tag) :=
  (typed_destroy sentinel self.vtable self.args, [.destroy self.vtable])

/-- The explicit operator bool: true exactly when the call member differs,
by pointer identity, from the typed_call instantiation for the sentinel
type. -/
def boolConv (sentinel : Tag) (self : Wrapper Tag Cap) : Bool :=
  !(decide (self.call = sentinel))

/-- The invariant as the specification states it: the call and vtable tags
both equal the tag of the storage occupant, or, with storage uninhabited,
both equal the sentinel. -/
def wf (sentinel : Tag) (w : Wrapper Tag Cap) : Bool :=
  match w.args with
  | none => decide (w.call = sentinel) && decide (w.vtable = sentinel)
  | some (t, _) => decide (w.call = t) && decide (w.vtable = t)

/-- The invariant the code actually maintains: the vtable tag always
matches the storage occupant (sentinel when uninhabited), while the call
tag is either the occupant tag or the sentinel (the latter is the
moved-from state produced by set_bad_call). -/
def wfWeak (sentinel : Tag) (w : Wrapper Tag Cap) : Bool :=
  match w.args with
  | none => decide (w.call = sentinel) && decide (w.vtable = sentinel)
  | some (t, _) => decide (w.vtable = t) && (decide (w.call = t) || decide (w.call = sentinel))

/-- States of a FuncCopyable wrapper reachable through its public
interface.  Every entry point taking a bare functor carries the
can_copy static_assert, recorded here as the hypothesis that the tag is
copyable.  FuncCopyable declares no move operations, so rvalue sources
also bind to the copy constructor and copy assignment. -/
inductive ReachableC (copyable : Tag → Bool) (sentinel : Tag) : Wrapper Tag Cap → Prop
  | default : ReachableC copyable sentinel (defaultCtor sentinel)
  | fromFunctor (t : Tag) (v : Cap) (hc : copyable t = true) :
      ReachableC copyable sentinel (fcCtorFromFunctor t v)
  | copy (other w : Wrapper Tag Cap) (tr : List (VOp Tag))
      (ho : ReachableC copyable sentinel other)
      (h : copyCtor copyable sentinel other = (.ok w, tr)) :
      ReachableC copyable sentinel w
  | assignFunctor (t : Tag) (v : Cap) (self : Wrapper Tag Cap)
      (hc : copyable t = true) (hs : ReachableC copyable sentinel self) :
      ReachableC copyable sentinel (fcCopyAssignFunctor t v self).1
  | assign (aliased : Bool) (self other w1 w2 : Wrapper Tag Cap) (tr : List (VOp Tag))
      (hs : ReachableC copyable sentinel self) (ho : ReachableC copyable sentinel other)
      (h : copyAssign copyable sentinel aliased self other = (.ok (w1, w2), tr)) :
      ReachableC copyable sentinel w1

end Dyn

/-! Concrete instance used by witnesses and counterexamples: tags are
natural numbers with 0 the sentinel, captured values, arguments and
results are integers. -/

/-- Concrete behaviour family: tag t with captured value v applied to a
maps to result t * 1000 + v + a and updates the captured value to v + 1
(a mutable functor, so side effects are observable). -/
def natSem : Nat → Int → Int → Int × Int := fun t v a => (t * 1000 + v + a, v + 1)

/-- Concrete copyability: every tag is copy constructible. -/
def allCopyable : Nat → Bool := fun _ => true

/-- Concrete copyability with tag 2 not copy constructible. -/
def copyableExcept2 : Nat → Bool := fun n => !(n == 2)

/-! Helper lemmas shared by the claim theorems. -/

section DynLemmas

variable {Tag : Type} [DecidableEq Tag] {Cap Arg Ret : Type}

/-- Elimination of the weak invariant when the storage is uninhabited. -/
theorem wfWeak_none_elim (sentinel : Tag) (w : Wrapper Tag Cap)
    (h : wfWeak sentinel w = true) (ha : w.args = none) :
    w.call = sentinel ∧ w.vtable = sentinel := by
  unfold wfWeak at h
  rw [ha] at h
  simpa using h

/-- Elimination of the weak invariant when the storage holds an occupant. -/
theorem wfWeak_some_elim (sentinel : Tag) (w : Wrapper Tag Cap) (t : Tag) (v : Cap)
    (h : wfWeak sentinel w = true) (ha : w.args = some (t, v)) :
    w.vtable = t ∧ (w.call = t ∨ w.call = sentinel) := by
  unfold wfWeak at h
  rw [ha] at h
  simpa using h

/-- Under the weak invariant, destroying the current occupant through the
current vtable never faults. -/
theorem typed_destroy_of_wfWeak (sentinel : Tag) (w : Wrapper Tag Cap)
    (h : wfWeak sentinel w = true) :
    ∃ s, typed_destroy sentinel w.vtable w.args = .ok s := by
  rcases ha : w.args with _ | ⟨t, v⟩
  · obtain ⟨hc, hv⟩ := wfWeak_none_elim sentinel w h ha
    exact ⟨none, by rw [hv]; simp [typed_destroy]⟩
  · obtain ⟨hv, hc⟩ := wfWeak_some_elim sentinel w t v h ha
    by_cases hts : t = sentinel
    · exact ⟨some (t, v), by rw [hv, hts]; simp [typed_destroy]⟩
    · exact ⟨none, by rw [hv]; simp [typed_destroy, hts]⟩

/-- Under the weak invariant, moving through the vtable of the source
never faults, leaves the source storage unchanged, and both the receiving
wrapper (which adopts the source call and vtable) and the source wrapper
after set_bad_call satisfy the weak invariant. -/
theorem typed_move_of_wfWeak (sentinel : Tag) (w : Wrapper Tag Cap)
    (h : wfWeak sentinel w = true) :
    ∃ d, typed_move sentinel w.vtable w.args = .ok (d, w.args)
      ∧ wfWeak sentinel (⟨d, w.call, w.vtable⟩ : Wrapper Tag Cap) = true
      ∧ wfWeak sentinel (⟨w.args, sentinel, w.vtable⟩ : Wrapper Tag Cap) = true := by
  rcases ha : w.args with _ | ⟨t, v⟩
  · obtain ⟨hc, hv⟩ := wfWeak_none_elim sentinel w h ha
    rw [hv, hc]
    exact ⟨none, by simp [typed_move], by simp [wfWeak], by simp [wfWeak]⟩
  · obtain ⟨hv, hc⟩ := wfWeak_some_elim sentinel w t v h ha
    rw [hv]
    by_cases hts : t = sentinel
    · subst hts
      refine ⟨none, by simp [typed_move], ?_, by simp [wfWeak]⟩
      rcases hc with hc | hc <;> rw [hc] <;> simp [wfWeak]
    · refine ⟨some (t, v), by simp [typed_move, hts], ?_, by simp [wfWeak]⟩
      rcases hc with hc | hc <;> rw [hc] <;> simp [wfWeak, hts]

/-- The move constructor, applied to a source satisfying the weak
invariant, succeeds, records exactly one move through the source vtable,
and produces a destination and a source that satisfy the weak invariant;
the source keeps its storage content and its vtable and gets the sentinel
call. -/
theorem moveCtor_of_wfWeak (sentinel : Tag) (other : Wrapper Tag Cap)
    (h : wfWeak sentinel other = true) :
    ∃ d, moveCtor sentinel other =
        (.ok (⟨d, other.call, other.vtable⟩, ⟨other.args, sentinel, other.vtable⟩),
         [VOp.move other.vtable])
      ∧ wfWeak sentinel (⟨d, other.call, other.vtable⟩ : Wrapper Tag Cap) = true
      ∧ wfWeak sentinel (⟨other.args, sentinel, other.vtable⟩ : Wrapper Tag Cap) = true := by
  obtain ⟨d, hm, h1, h2⟩ := typed_move_of_wfWeak sentinel other h
  refine ⟨d, ?_, h1, h2⟩
  unfold moveCtor
  rw [hm]

/-- The vtable copy operation of a copy constructible type never calls
std::terminate. -/
theorem typed_copy_not_terminated (copyable : Tag → Bool) (sentinel t : Tag)
    (h : copyable t = true) (s : Option (Tag × Cap)) :
    typed_copy copyable sentinel t s ≠ .error .terminated := by
  unfold typed_copy
  rw [h]
  rw [if_neg (by simp)]
  by_cases hts : t = sentinel
  · rw [if_pos hts]
    simp
  · rw [if_neg hts]
    rcases s with _ | ⟨u, v⟩
    · simp
    · by_cases hut : u = t
      · simp [hut]
      · simp [hut]

/-- Every FuncCopyable state reachable through the public interface has a
copy constructible vtable tag (the sentinel, a captureless lambda, is copy
constructible). -/
theorem reachableC_vtable_copyable (copyable : Tag → Bool) (sentinel : Tag)
    (hsent : copyable sentinel = true) (w : Wrapper Tag Cap)
    (hr : ReachableC copyable sentinel w) : copyable w.vtable = true := by
  induction hr with
  | default => exact hsent
  | fromFunctor t v hc => exact hc
  | copy other w tr ho h ih =>
      rcases hcop : typed_copy copyable sentinel other.vtable other.args with f | dst
      · unfold copyCtor at h
        rw [hcop] at h
        injection h with h1 h2
        injection h1
      · unfold copyCtor at h
        rw [hcop] at h
        injection h with h1 h2
        injection h1 with h3
        rw [← h3]
        exact ih
  | assignFunctor t v self hc hs ih => exact hc
  | assign ab self other w1 w2 tr hs ho h ihs iho =>
      cases ab with
      | true =>
          unfold copyAssign at h
          rw [if_pos rfl] at h
          injection h with h1 h2
          injection h1 with h3
          injection h3 with h4 h5
          rw [← h4]
          exact ihs
      | false =>
          unfold copyAssign at h
          rw [if_neg (by simp)] at h
          rcases hdes : typed_destroy sentinel self.vtable self.args with f | s2
          · rw [hdes] at h
            injection h with h1 h2
            injection h1
          · rw [hdes] at h
            rcases hcop : typed_copy copyable sentinel self.vtable other.args with f | dst
            · rw [hcop] at h
              injection h with h1 h2
              injection h1
            · rw [hcop] at h
              injection h with h1 h2
              injection h1 with h3
              injection h3 with h4 h5
              rw [← h4]
              exact iho

end DynLemmas

/-! Claim theorems. -/

section Claims

variable {Tag : Type} [DecidableEq Tag] {Cap Arg Ret : Type}

/-- C1: counter-evidence for the claim that copy construction AND copy
assignment both invoke the copy operation of the SOURCE table.  Copy
construction does (last two conjuncts), but copy assignment performs the
copy through the vtable member of the destination as it was before the
assignment: assigning a wrapper holding tag 1 to a default-constructed
wrapper records the trace [destroy 0, copy 0], never copy 1, so no object
of tag 1 is duplicated, and the resulting wrapper, whose call and vtable
claim tag 1 over storage that holds no tag 1 object, faults when invoked
instead of being independently callable. -/
theorem copy_assign_copies_through_destination_table :
    copyAssign allCopyable 0 false (defaultCtor 0) (fcCtorFromFunctor 1 (5 : Int))
      = (.ok (⟨none, 1, 1⟩, fcCtorFromFunctor 1 5), [VOp.destroy 0, VOp.copy 0])
    ∧ (fcCtorFromFunctor 1 (5 : Int) : Wrapper Nat Int).vtable = 1
    ∧ VOp.copy 1 ∉ ([VOp.destroy 0, VOp.copy 0] : List (VOp Nat))
    ∧ invoke natSem 0 (⟨none, 1, 1⟩ : Wrapper Nat Int) 3 = .error .undefined
    ∧ copyCtor allCopyable 0 (fcCtorFromFunctor 1 (5 : Int))
      = (.ok (fcCtorFromFunctor 1 5), [VOp.copy 1])
    ∧ invoke natSem 0 (fcCtorFromFunctor 1 (5 : Int)) 3
      = .ok ((natSem 1 5 3).1, some (1, (natSem 1 5 3).2)) :=
  ⟨rfl, rfl, by decide, rfl, rfl, rfl⟩

/-- C2 counterexample: move construction from a wrapper holding tag 1
leaves the source with the sentinel call but with the vtable still tag 1,
so the claimed invariant (call and vtable both match the occupant or are
both the sentinel) is violated, and the source table is not the
sentinel table as the claim asserts. -/
theorem moved_from_wrapper_violates_claimed_invariant :
    moveCtor 0 (fncCtorFromFunctor 1 (5 : Int))
      = (.ok (⟨some (1, 5), 1, 1⟩, ⟨some (1, 5), 0, 1⟩), [VOp.move 1])
    ∧ wf 0 (⟨some (1, 5), 0, 1⟩ : Wrapper Nat Int) = false
    ∧ (⟨some (1, 5), 0, 1⟩ : Wrapper Nat Int).vtable ≠ 0 :=
  ⟨rfl, rfl, by decide⟩

/-- C2 (amended): every move-only wrapper operation preserves the weak
invariant wfWeak: the vtable always matches the storage occupant (the
sentinel when storage is uninhabited) while the call is the occupant tag
or the sentinel.  A moved-from wrapper specifically has the sentinel call
but keeps the vtable of its former occupant, which still matches the
moved-from residue left in storage, so destroying the moved-from wrapper
runs exactly one destroy through that former table and succeeds. -/
theorem fnc_ops_preserve_weak_invariant (sentinel : Tag) :
    (wfWeak sentinel (defaultCtor sentinel : Wrapper Tag Cap) = true)
    ∧ (∀ (t : Tag) (v : Cap), wfWeak sentinel (fncCtorFromFunctor t v) = true)
    ∧ (∀ other : Wrapper Tag Cap, wfWeak sentinel other = true →
        ∃ w1 w2, moveCtor sentinel other = (.ok (w1, w2), [VOp.move other.vtable])
          ∧ wfWeak sentinel w1 = true ∧ wfWeak sentinel w2 = true
          ∧ w2.call = sentinel ∧ w2.vtable = other.vtable
          ∧ ∃ s, dtor sentinel w2 = (.ok s, [VOp.destroy other.vtable]))
    ∧ (∀ (ab : Bool) (self other : Wrapper Tag Cap),
        wfWeak sentinel self = true → wfWeak sentinel other = true →
        ∃ w1 w2, (moveAssign sentinel ab self other).1 = .ok (w1, w2)
          ∧ wfWeak sentinel w1 = true ∧ wfWeak sentinel w2 = true)
    ∧ (∀ (t : Tag) (v : Cap) (self : Wrapper Tag Cap), wfWeak sentinel self = true →
        (fncMoveAssignFunctor sentinel t v self).1 = .ok ⟨some (t, v), t, t⟩
          ∧ wfWeak sentinel (⟨some (t, v), t, t⟩ : Wrapper Tag Cap) = true)
    ∧ (∀ self : Wrapper Tag Cap, wfWeak sentinel self = true →
        ∃ s, (dtor sentinel self).1 = .ok s) := by
  refine ⟨by simp [wfWeak, defaultCtor],
    fun t v => by simp [wfWeak, fncCtorFromFunctor], ?_, ?_, ?_, ?_⟩
  · intro other hother
    obtain ⟨d, hm, h1, h2⟩ := moveCtor_of_wfWeak sentinel other hother
    obtain ⟨s, hd⟩ := typed_destroy_of_wfWeak sentinel other hother
    refine ⟨⟨d, other.call, other.vtable⟩, ⟨other.args, sentinel, other.vtable⟩,
      hm, h1, h2, rfl, rfl, ⟨s, ?_⟩⟩
    simp [dtor, hd]
  · intro ab self other h1 h2
    cases ab with
    | true => exact ⟨self, other, by simp [moveAssign], h1, h2⟩
    | false =>
        obtain ⟨s, hd⟩ := typed_destroy_of_wfWeak sentinel self h1
        obtain ⟨d, hm, hw1, hw2⟩ := typed_move_of_wfWeak sentinel other h2
        refine ⟨⟨d, other.call, other.vtable⟩, ⟨other.args, sentinel, other.vtable⟩,
          ?_, hw1, hw2⟩
        simp [moveAssign, hd, hm]
  · intro t v self h1
    obtain ⟨s, hd⟩ := typed_destroy_of_wfWeak sentinel self h1
    exact ⟨by simp [fncMoveAssignFunctor, hd], by simp [wfWeak]⟩
  · intro self h1
    obtain ⟨s, hd⟩ := typed_destroy_of_wfWeak sentinel self h1
    exact ⟨s, by simp [dtor, hd]⟩

/-- C2 witness: the amended invariant theorem applied at the concrete
instance with sentinel 0. -/
theorem fnc_ops_preserve_weak_invariant_witness :
    wfWeak 0 (defaultCtor 0 : Wrapper Nat Int) = true
    ∧ wfWeak 0 (fncCtorFromFunctor 1 (5 : Int)) = true
    ∧ ∃ s, (dtor 0 (defaultCtor 0 : Wrapper Nat Int)).1 = .ok s :=
  ⟨(fnc_ops_preserve_weak_invariant 0).1,
   (fnc_ops_preserve_weak_invariant 0).2.1 1 5,
   (fnc_ops_preserve_weak_invariant 0).2.2.2.2.2 (defaultCtor 0) (by decide)⟩

/-- C3: moving a wrapper w1 holding a captured callable into w2, by move
construction or by move assignment into any destination satisfying the
weak invariant, succeeds; afterwards invoking w2 yields exactly what
invoking w1 yielded before the move, the boolean conversion of the
moved-from w1 is false, and invoking the moved-from w1 terminates the
process. -/
theorem move_transfers_behavior (sem : Tag → Cap → Arg → Ret × Cap)
    (sentinel t : Tag) (v : Cap) (hts : t ≠ sentinel) :
    (∃ w2 w1a, (moveCtor sentinel (fncCtorFromFunctor t v)).1 = .ok (w2, w1a)
      ∧ (∀ a, invoke sem sentinel w2 a = invoke sem sentinel (fncCtorFromFunctor t v) a)
      ∧ boolConv sentinel w1a = false
      ∧ (∀ a, invoke sem sentinel w1a a = .error .terminated))
    ∧ (∀ dst : Wrapper Tag Cap, wfWeak sentinel dst = true →
      ∃ w2 w1a, (moveAssign sentinel false dst (fncCtorFromFunctor t v)).1 = .ok (w2, w1a)
        ∧ (∀ a, invoke sem sentinel w2 a = invoke sem sentinel (fncCtorFromFunctor t v) a)
        ∧ boolConv sentinel w1a = false
        ∧ (∀ a, invoke sem sentinel w1a a = .error .terminated)) := by
  constructor
  · refine ⟨⟨some (t, v), t, t⟩, ⟨some (t, v), sentinel, t⟩, ?_, fun a => rfl,
      by simp [boolConv], fun a => by simp [invoke, typed_call]⟩
    simp [moveCtor, fncCtorFromFunctor, typed_move, hts]
  · intro dst hdst
    obtain ⟨s, hd⟩ := typed_destroy_of_wfWeak sentinel dst hdst
    refine ⟨⟨some (t, v), t, t⟩, ⟨some (t, v), sentinel, t⟩, ?_, fun a => rfl,
      by simp [boolConv], fun a => by simp [invoke, typed_call]⟩
    simp [moveAssign, fncCtorFromFunctor, typed_move, hts, hd]

/-- C3 witness: the move theorem applied at the concrete instance. -/
theorem move_transfers_behavior_witness :
    (1 : Nat) ≠ 0
    ∧ ∃ w2 w1a, (moveCtor 0 (fncCtorFromFunctor 1 (5 : Int))).1 = .ok (w2, w1a)
      ∧ (∀ a, invoke natSem 0 w2 a = invoke natSem 0 (fncCtorFromFunctor 1 5) a)
      ∧ boolConv 0 w1a = false
      ∧ (∀ a, invoke natSem 0 w1a a = .error .terminated) :=
  ⟨by decide, (move_transfers_behavior natSem 0 1 5 (by decide)).1⟩

/-- C4: counter-evidence for the claim that every construction or
assignment path from a bare functor rejects, at compile time, a functor
that does not fit storage or whose result type differs from the declared
one.  The FuncCopyable converting constructor carries neither the
can_emplace static_assert nor the exact-result static_assert: a copyable
functor of size 24 (storage object size is 16 under the default
configuration) compiles on that path although can_emplace is false and
although every other path rejects it, and a functor whose result type
merely converts to the declared result also compiles on that path. -/
theorem fc_ctor_compiles_without_capacity_or_result_check :
    fcCtorFromFunctorCompiles defaultConfig ⟨24, 8, true, true, true⟩ = true
    ∧ can_emplace defaultConfig ⟨24, 8, true, true, true⟩ = false
    ∧ fncCtorFromFunctorCompiles defaultConfig ⟨24, 8, true, true, true⟩ = false
    ∧ fncMoveAssignFunctorCompiles defaultConfig ⟨24, 8, true, true, true⟩ = false
    ∧ fcCopyAssignFunctorCompiles defaultConfig ⟨24, 8, true, true, true⟩ = false
    ∧ fcCtorFromFunctorCompiles defaultConfig ⟨8, 8, true, false, true⟩ = true
    ∧ (⟨8, 8, true, false, true⟩ : CandType).resultSame = false := by
  decide

/-- C5: constructing a wrapper from a functor of tag t with captured value
v (on either wrapper variant) and invoking it with argument a produces
exactly the result of the direct call sem t v a, and leaves in storage
exactly the captured state the direct call produces, so result and
observable side effects agree with direct invocation. -/
theorem wrapper_invocation_equals_direct_call (sem : Tag → Cap → Arg → Ret × Cap)
    (sentinel t : Tag) (v : Cap) (a : Arg) (hts : t ≠ sentinel) :
    invoke sem sentinel (fncCtorFromFunctor t v) a
      = .ok ((sem t v a).1, some (t, (sem t v a).2))
    ∧ invoke sem sentinel (fcCtorFromFunctor t v) a
      = .ok ((sem t v a).1, some (t, (sem t v a).2)) := by
  constructor <;> simp [invoke, typed_call, fncCtorFromFunctor, fcCtorFromFunctor, hts]

/-- C5 witness: the invocation theorem applied at the concrete instance. -/
theorem wrapper_invocation_equals_direct_call_witness :
    invoke natSem 0 (fncCtorFromFunctor 1 (5 : Int)) (3 : Int)
      = .ok ((natSem 1 5 3).1, some (1, (natSem 1 5 3).2))
    ∧ natSem 1 5 3 = (1008, 6) :=
  ⟨(wrapper_invocation_equals_direct_call natSem 0 1 5 3 (by decide)).1, by decide⟩

/-- C6: the boolean conversion of a default-constructed wrapper is false
(its call is the sentinel trampoline by identity) and invoking it
terminates the process; a wrapper constructed from a user-supplied
callable, whose type is distinct from the sentinel type, converts to
true. -/
theorem bool_conversion_contract (sem : Tag → Cap → Arg → Ret × Cap)
    (sentinel : Tag) (a : Arg) :
    boolConv sentinel (defaultCtor sentinel : Wrapper Tag Cap) = false
    ∧ invoke sem sentinel (defaultCtor sentinel : Wrapper Tag Cap) a = .error .terminated
    ∧ (∀ (t : Tag) (v : Cap), t ≠ sentinel →
        boolConv sentinel (fncCtorFromFunctor t v) = true
        ∧ boolConv sentinel (fcCtorFromFunctor t v) = true) := by
  refine ⟨by simp [boolConv, defaultCtor],
    by simp [invoke, typed_call, defaultCtor], fun t v hts => ?_⟩
  constructor <;> simp [boolConv, fncCtorFromFunctor, fcCtorFromFunctor, hts]

/-- C6 witness: the boolean conversion theorem applied at the concrete
instance. -/
theorem bool_conversion_contract_witness :
    boolConv 0 (defaultCtor 0 : Wrapper Nat Int) = false
    ∧ invoke natSem 0 (defaultCtor 0 : Wrapper Nat Int) 3 = .error .terminated
    ∧ boolConv 0 (fncCtorFromFunctor 1 (5 : Int)) = true :=
  ⟨(bool_conversion_contract natSem 0 3).1,
   (bool_conversion_contract natSem 0 3).2.1,
   ((bool_conversion_contract natSem 0 3).2.2 1 5 (by decide)).1⟩

/-- C7: the table copy operation of a non copy constructible captured type
terminates the process for every storage content; and every FuncCopyable
state reachable through the guarded public interface (assuming the
sentinel is copy constructible, as a captureless lambda is) has a copy
constructible vtable tag, so the copy operation it would dispatch never
reaches the terminating branch. -/
theorem noncopyable_table_copy_terminates (copyable : Tag → Bool) (sentinel : Tag)
    (hsent : copyable sentinel = true) :
    (∀ (t : Tag) (s : Option (Tag × Cap)), copyable t = false →
        typed_copy copyable sentinel t s = .error .terminated)
    ∧ (∀ w : Wrapper Tag Cap, ReachableC copyable sentinel w →
        copyable w.vtable = true
        ∧ ∀ s : Option (Tag × Cap),
            typed_copy copyable sentinel w.vtable s ≠ .error .terminated) := by
  constructor
  · intro t s hnc
    unfold typed_copy
    rw [hnc]
    rw [if_pos rfl]
  · intro w hr
    have hv := reachableC_vtable_copyable copyable sentinel hsent w hr
    exact ⟨hv, fun s => typed_copy_not_terminated copyable sentinel w.vtable hv s⟩

/-- C7 witness: the termination theorem applied at the concrete instance
in which tag 2 is not copy constructible, and the reachability invariant
applied to a default-constructed copyable wrapper. -/
theorem noncopyable_table_copy_terminates_witness :
    typed_copy copyableExcept2 0 2 (none : Option (Nat × Int)) = .error .terminated
    ∧ copyableExcept2 ((defaultCtor 0 : Wrapper Nat Int).vtable) = true :=
  ⟨(noncopyable_table_copy_terminates copyableExcept2 0 (by decide)).1 2 none (by decide),
   ((noncopyable_table_copy_terminates copyableExcept2 0 (by decide)).2
      (defaultCtor 0) ReachableC.default).1⟩

/-- C8 counterexample: under the default configuration (size 12, align 8)
a type of size 16 and alignment 8 satisfies can_emplace although its size
exceeds the configured storage size S = 12: the code compares against the
padded sizeof(FunctorArgs) = 16, not against S. -/
theorem fits_accepts_sixteen_bytes_over_config_twelve :
    can_emplace defaultConfig ⟨16, 8, true, true, true⟩ = true
    ∧ ¬ ((⟨16, 8, true, true, true⟩ : CandType).size ≤ defaultConfig.size) := by
  decide

/-- C8 (amended): can_emplace holds iff sizeof(T) is at most
sizeof(FunctorArgs) and the storage alignment is a multiple of the
alignment of T, where sizeof(FunctorArgs) is the configured size rounded
up to the least multiple of the configured alignment; can_copy holds iff
the type is copy constructible. -/
theorem fits_uses_padded_storage_size (c : Config) (t : CandType) (hA : 0 < c.align) :
    c.align ∣ sizeofFunctorArgs c
    ∧ c.size ≤ sizeofFunctorArgs c
    ∧ sizeofFunctorArgs c < c.size + c.align
    ∧ (can_emplace c t = true ↔
        (t.size ≤ sizeofFunctorArgs c ∧ alignofFunctorArgs c % t.align = 0))
    ∧ (can_copy t = true ↔ t.copyConstructible = true) := by
  have hbounds : c.size ≤ sizeofFunctorArgs c ∧ sizeofFunctorArgs c < c.size + c.align := by
    unfold sizeofFunctorArgs
    have hdm := Nat.div_add_mod (c.size + c.align - 1) c.align
    have hmlt : (c.size + c.align - 1) % c.align < c.align := Nat.mod_lt _ hA
    set q := (c.size + c.align - 1) / c.align with hq
    set r := (c.size + c.align - 1) % c.align with hr
    set x := c.align * q with hx
    omega
  exact ⟨⟨(c.size + c.align - 1) / c.align, rfl⟩, hbounds.1, hbounds.2,
    by simp [can_emplace], Iff.rfl⟩

/-- C8 witness: the amended capability theorem applied at the default
configuration and a concrete candidate type. -/
theorem fits_uses_padded_storage_size_witness :
    0 < defaultConfig.align
    ∧ defaultConfig.align ∣ sizeofFunctorArgs defaultConfig
    ∧ (can_emplace defaultConfig ⟨16, 8, true, true, true⟩ = true ↔
        ((⟨16, 8, true, true, true⟩ : CandType).size ≤ sizeofFunctorArgs defaultConfig
          ∧ alignofFunctorArgs defaultConfig % (⟨16, 8, true, true, true⟩ : CandType).align = 0)) :=
  ⟨by decide,
   (fits_uses_padded_storage_size defaultConfig ⟨16, 8, true, true, true⟩ (by decide)).1,
   (fits_uses_padded_storage_size defaultConfig ⟨16, 8, true, true, true⟩ (by decide)).2.2.2.1⟩

omit [DecidableEq Tag] in
/-- C9: copy assignment of a bare functor into a copyable wrapper stores
the new functor and sets the call and vtable to its tag, and invokes no
vtable operation at all; in particular the destroy operation of the
current table never runs, so the previous occupant is not destroyed
during this assignment. -/
theorem functor_copy_assign_never_destroys (t : Tag) (v : Cap) (self : Wrapper Tag Cap) :
    fcCopyAssignFunctor t v self = (⟨some (t, v), t, t⟩, [])
    ∧ ∀ u, VOp.destroy u ∉ (fcCopyAssignFunctor t v self).2 :=
  ⟨rfl, fun u => by simp [fcCopyAssignFunctor]⟩

/-- C9 witness: the functor copy assignment theorem applied at the
concrete instance, overwriting a wrapper that holds tag 2. -/
theorem functor_copy_assign_never_destroys_witness :
    fcCopyAssignFunctor 1 (5 : Int) (⟨some (2, 9), 2, 2⟩ : Wrapper Nat Int)
      = (⟨some (1, 5), 1, 1⟩, []) :=
  (functor_copy_assign_never_destroys 1 5 ⟨some (2, 9), 2, 2⟩).1

/-- C10: move assignment of a wrapper to itself and copy assignment of a
copyable wrapper to itself (the aliased branch of each operator) return
the wrapper unchanged and invoke no vtable operation. -/
theorem self_assignment_is_noop (copyable : Tag → Bool) (sentinel : Tag)
    (w : Wrapper Tag Cap) :
    moveAssign sentinel true w w = (.ok (w, w), [])
    ∧ copyAssign copyable sentinel true w w = (.ok (w, w), []) :=
  ⟨rfl, rfl⟩

/-- C10 witness: the self assignment theorem applied at the concrete
instance to a wrapper holding tag 1. -/
theorem self_assignment_is_noop_witness :
    moveAssign 0 true (⟨some (1, 5), 1, 1⟩ : Wrapper Nat Int) ⟨some (1, 5), 1, 1⟩
      = (.ok (⟨some (1, 5), 1, 1⟩, ⟨some (1, 5), 1, 1⟩), [])
    ∧ copyAssign allCopyable 0 true (⟨some (1, 5), 1, 1⟩ : Wrapper Nat Int) ⟨some (1, 5), 1, 1⟩
      = (.ok (⟨some (1, 5), 1, 1⟩, ⟨some (1, 5), 1, 1⟩), []) :=
  self_assignment_is_noop allCopyable 0 ⟨some (1, 5), 1, 1⟩

end Claims

end Delegate
